import Mathlib

/-!
Shallow embedding of the transcription service in
`src/ramble_mode_v2.py` and `src/ramble_mode_v2_multi.py`
(repository ramble-mode-v2).

Times are modelled as exact rationals; `round2` models Python's
`round(x, 2)` on them.  Strings are Lean `String`s; Python's
`str.strip()` is modelled by `String.trim`.  The external decoder
(ffmpeg) and the recognition model are opaque capabilities: their
outcomes enter the embedding as parameters, and the handlers'
control flow over those outcomes is translated faithfully.
-/

namespace Ramble

/-- `round(x, 2)`: round to two decimal places. -/
def round2 (q : ℚ) : ℚ := (round (q * 100) : ℤ) / 100

/-- A raw recognition segment, as produced by one recognition call:
`{start, end, text}` (field `end` is rendered `stop`). -/
structure RawSegment where
  start : ℚ
  stop : ℚ
  text : String
deriving Repr, DecidableEq

/-- A formatted output segment: raw segment plus assigned speaker label,
text stripped, times rounded (`ramble_mode_v2.py` lines 117-122). -/
structure FormattedSegment where
  speaker : String
  text : String
  start : ℚ
  stop : ℚ
deriving Repr, DecidableEq

/-- `f"Speaker {(i % 2) + 1}"` (`ramble_mode_v2.py` line 115). -/
def speakerLabel (i : ℕ) : String := "Speaker " ++ toString (i % 2 + 1)

/-- One update of `current_speaker` (`ramble_mode_v2.py` lines 114-115):
`if seg["start"] - last_end > 2.0 and speaker_detection`. -/
def nextSpeaker (speakerDetection : Bool) (i : ℕ) (currentSpeaker : String)
    (lastEnd start : ℚ) : String :=
  if start - lastEnd > 2 ∧ speakerDetection = true then speakerLabel i
  else currentSpeaker

/-- The loop body of the speaker-detection pass
(`ramble_mode_v2.py` lines 112-123), with the loop state
(index `i`, `current_speaker`, `last_end`) passed explicitly. -/
def formatSegsAux (speakerDetection : Bool) :
    List RawSegment → ℕ → String → ℚ → List FormattedSegment
  | [], _, _, _ => []
  | seg :: rest, i, currentSpeaker, lastEnd =>
      { speaker := nextSpeaker speakerDetection i currentSpeaker lastEnd seg.start
        text := seg.text.trim
        start := round2 seg.start
        stop := round2 seg.stop } ::
        formatSegsAux speakerDetection rest (i + 1)
          (nextSpeaker speakerDetection i currentSpeaker lastEnd seg.start) seg.stop

/-- The whole pass (`ramble_mode_v2.py` lines 108-123):
`current_speaker = "Speaker 1"`, `last_end = 0`, enumerate from 0. -/
def formatSegments (speakerDetection : Bool) (segs : List RawSegment) :
    List FormattedSegment :=
  formatSegsAux speakerDetection segs 0 "Speaker 1" 0

/-- `len(set(s["speaker"] for s in formatted_segments)) if speaker_detection else 1`
(`ramble_mode_v2.py` line 133). -/
def speakersDetected (speakerDetection : Bool) (formatted : List FormattedSegment) : ℕ :=
  if speakerDetection then ((formatted.map (fun s => s.speaker)).dedup).length else 1

/-- `round(segments[-1]["end"], 2) if segments else 0`
(`ramble_mode_v2.py` line 128, `ramble_mode_v2_multi.py` line 162). -/
def durationSeconds (segs : List RawSegment) : ℚ :=
  match segs.getLast? with
  | some s => round2 s.stop
  | none => 0

/-- The four raw segments of the spec's worked example:
starts `[0, 1, 5, 6]`, ends `[1, 2, 5.5, 6.5]`. -/
def exampleSegs : List RawSegment :=
  [⟨0, 1, "a"⟩, ⟨1, 2, "b"⟩, ⟨5, 5.5, "c"⟩, ⟨6, 6.5, "d"⟩]

/-- Outcome of the external decode invocation (`subprocess.run` of ffmpeg):
it completes with exit code 0, completes with a non-zero exit code and
diagnostic text on stderr, or exceeds the 30 s bound, raising
`TimeoutExpired` whose message is `excMsg`. -/
inductive DecodeOutcome where
  | ok
  | nonZeroExit (stderr : String)
  | timeout (excMsg : String)
deriving Repr, DecidableEq

/-- Outcome of `model.transcribe(...)`: a raw result (segments, full text,
detected language), or an unexpected exception with message `msg` whose
formatted traceback is `tb`. -/
inductive RecogOutcome where
  | ok (segments : List RawSegment) (fullText : String) (language : String)
  | failure (msg : String) (tb : String)
deriving Repr, DecidableEq

/-- `MODEL_SIZE = "base"` (`ramble_mode_v2.py` line 27). -/
def MODEL_SIZE : String := "base"

/-- The success body built at `ramble_mode_v2.py` lines 125-134
(its `"status": "success"` field is captured by the `Response.success`
constructor below). -/
structure TranscriptionResult where
  text : String
  language : String
  duration_seconds : ℚ
  segments : List FormattedSegment
  model : String
  task : String
  speakers_detected : ℕ
deriving Repr, DecidableEq

/-- A response of the single-model `/transcribe` handler: either the
success body, or a `JSONResponse` with `"status": "error"`, an HTTP
status code, an error message, and (only on the generic 500 path) a
`"traceback"` field. -/
inductive Response where
  | success (r : TranscriptionResult)
  | error (statusCode : ℕ) (errorMsg : String) (traceback : Option String)
deriving Repr, DecidableEq

/-- Existence state of the two per-request temporary files: the
uploaded-bytes file (`temp_path`) and the converted WAV (`wav_path`). -/
structure TempFiles where
  tempExists : Bool
  wavExists : Bool
deriving Repr, DecidableEq

/-- The `finally` block (`ramble_mode_v2.py` lines 152-156,
`ramble_mode_v2_multi.py` lines 174-177): for each of the two paths,
unlink it if it exists. -/
def cleanup (fs : TempFiles) : TempFiles :=
  let fs1 := if fs.tempExists then { fs with tempExists := false } else fs
  if fs1.wavExists then { fs1 with wavExists := false } else fs1

/-- The `/transcribe` handler of `ramble_mode_v2.py` (lines 57-156), from
the point where the uploaded bytes have been written to `temp_path`.
`wavWritten` is whether the decoder had already created the WAV file when
it failed or timed out (on exit code 0 the WAV exists).  Returns the
response together with the final state of the two temporary files. -/
def transcribeV2 (decodeRes : DecodeOutcome) (wavWritten : Bool)
    (recog : RecogOutcome) (speaker_detection : Bool) (task : String) :
    Response × TempFiles :=
  match decodeRes with
  | .nonZeroExit stderr =>
      (.error 400 ("Audio conversion failed: " ++ stderr) none,
       cleanup ⟨true, wavWritten⟩)
  | .timeout _ =>
      (.error 408 "Audio processing timed out (file too large?)" none,
       cleanup ⟨true, wavWritten⟩)
  | .ok =>
      match recog with
      | .failure msg tb =>
          (.error 500 msg (some tb), cleanup ⟨true, true⟩)
      | .ok segs fullText lang =>
          let formatted := formatSegments speaker_detection segs
          (.success
            { text := fullText.trim
              language := lang
              duration_seconds := durationSeconds segs
              segments := formatted
              model := "whisper-" ++ MODEL_SIZE
              task := task
              speakers_detected := speakersDetected speaker_detection formatted },
           cleanup ⟨true, true⟩)

/-- Metadata attached to each entry of `MODELS`
(`ramble_mode_v2_multi.py` lines 28-34). -/
structure ModelInfo where
  size : String
  speed : String
  accuracy : String
  vram : String
deriving Repr, DecidableEq

/-- `MODELS` (`ramble_mode_v2_multi.py` lines 28-34), keys in order. -/
def MODELS : List (String × ModelInfo) :=
  [("tiny", ⟨"tiny", "fastest", "basic", "1GB"⟩),
   ("base", ⟨"base", "fast", "good", "1GB"⟩),
   ("small", ⟨"small", "medium", "better", "2GB"⟩),
   ("medium", ⟨"medium", "slow", "great", "5GB"⟩),
   ("large", ⟨"large", "slowest", "best", "10GB"⟩)]

/-- `list(MODELS.keys())`. -/
def knownModels : List String := MODELS.map Prod.fst

/-- Message of the invalid-model response
(`ramble_mode_v2_multi.py` line 126). -/
def invalidModelMsg : String :=
  "Invalid model. Choose from: " ++ toString knownModels

/-- Success body of the multi-model handler
(`ramble_mode_v2_multi.py` lines 159-166). -/
structure MultiResult where
  text : String
  language : String
  duration_seconds : ℚ
  model : String
  model_info : ModelInfo
deriving Repr, DecidableEq

/-- A response of the multi-model `/transcribe` handler: success body, or
an error body with an HTTP status code and message (this handler attaches
no traceback field). -/
inductive MultiResponse where
  | success (r : MultiResult)
  | error (statusCode : ℕ) (errorMsg : String)
deriving Repr, DecidableEq

/-- HTTP status of a multi-model response (a plain dict returns 200). -/
def MultiResponse.statusCode : MultiResponse → ℕ
  | .success _ => 200
  | .error c _ => c

/-- The `/transcribe` handler of `ramble_mode_v2_multi.py` (lines
114-177).  The model name is validated before any file is created; the
decoder's exit code is never inspected (its `subprocess.run` result is
discarded), so both `ok` and `nonZeroExit` fall through to recognition;
`TimeoutExpired` is only caught by the generic `except Exception`
handler, which returns 500 with `str(e)`.  (`start_time = os.time() if
hasattr(os, 'time') else 0` evaluates to 0 — `os` has no `time`
attribute — and is unused.) -/
def transcribeMulti (model : String) (decodeRes : DecodeOutcome)
    (wavWritten : Bool) (recog : RecogOutcome) : MultiResponse × TempFiles :=
  if model ∈ knownModels then
    match decodeRes with
    | .timeout excMsg => (.error 500 excMsg, cleanup ⟨true, wavWritten⟩)
    | d =>
        let wavNow : Bool := match d with | .ok => true | _ => wavWritten
        match recog with
        | .failure msg _ => (.error 500 msg, cleanup ⟨true, wavNow⟩)
        | .ok segs fullText lang =>
            (.success
              { text := fullText.trim
                language := lang
                duration_seconds := durationSeconds segs
                model := "whisper-" ++ model
                model_info := ((MODELS.lookup model).getD ⟨"", "", "", ""⟩) },
             cleanup ⟨true, wavNow⟩)
  else
    (.error 400 invalidModelMsg, ⟨false, false⟩)

/-- `duration_seconds` of a single-model response, when it is a success. -/
def responseDuration : Response → Option ℚ
  | .success r => some r.duration_seconds
  | .error _ _ _ => none

/-- `speakers_detected` of a single-model response, when it is a success. -/
def responseSpeakers : Response → Option ℕ
  | .success r => some r.speakers_detected
  | .error _ _ _ => none

/-- `segments` of a single-model response, when it is a success. -/
def responseSegments : Response → Option (List FormattedSegment)
  | .success r => some r.segments
  | .error _ _ _ => none

/-- `duration_seconds` of a multi-model response, when it is a success. -/
def multiDuration : MultiResponse → Option ℚ
  | .success r => some r.duration_seconds
  | .error _ _ => none

/-- The `"traceback"` field of a single-model response, when present. -/
def responseTraceback : Response → Option String
  | .success _ => none
  | .error _ _ tb => tb

/-- A loaded model handle.  `id` identifies the in-memory instance:
each execution of `whisper.load_model(...).to(device)` yields a fresh
instance. -/
structure Handle where
  id : ℕ
  modelSize : String
deriving Repr, DecidableEq

/-- State of the `loaded_models` cache of `ramble_mode_v2_multi.py`
(line 89), plus instrumentation: `nextId` is the identity the next load
would create, and `loadCount` counts executed loads. -/
structure RegistryState where
  loadedModels : List (String × Handle)
  nextId : ℕ
  loadCount : ℕ
deriving Repr, DecidableEq

/-- `get_model` (`ramble_mode_v2_multi.py` lines 92-112).  The body holds
no suspension point (no `await`), so under the single-threaded event loop
that runs the `async def` handlers each execution is atomic; concurrent
requests observe a serialization of whole `get_model` runs, which this
state-passing function models.  Whether the weights are read from the
volume or downloaded only changes the weight source; either branch
executes exactly one `whisper.load_model` and stores the handle. -/
def get_model (s : RegistryState) (model_size : String) : Handle × RegistryState :=
  match s.loadedModels.lookup model_size with
  | some h => (h, s)
  | none =>
      let h : Handle := ⟨s.nextId, model_size⟩
      (h, ⟨(model_size, h) :: s.loadedModels, s.nextId + 1, s.loadCount + 1⟩)

/-- A serialized sequence of `get_model` calls, returning the handles
each call observed and the final registry state. -/
def runGetModels (s : RegistryState) : List String → List Handle × RegistryState
  | [] => ([], s)
  | m :: ms =>
      let p := get_model s m
      let q := runGetModels p.2 ms
      (p.1 :: q.1, q.2)

/-! ### Helper lemmas -/

lemma speakerLabel_eq (i : ℕ) :
    speakerLabel i = "Speaker 1" ∨ speakerLabel i = "Speaker 2" := by
  rcases Nat.mod_two_eq_zero_or_one i with h | h
  · left
    unfold speakerLabel
    rw [h]
    rfl
  · right
    unfold speakerLabel
    rw [h]
    rfl

lemma nextSpeaker_mem (sd : Bool) (i : ℕ) (cur : String) (lastEnd start : ℚ)
    (hcur : cur = "Speaker 1" ∨ cur = "Speaker 2") :
    nextSpeaker sd i cur lastEnd start = "Speaker 1"
      ∨ nextSpeaker sd i cur lastEnd start = "Speaker 2" := by
  unfold nextSpeaker
  split
  · exact speakerLabel_eq i
  · exact hcur

lemma nextSpeaker_false (i : ℕ) (cur : String) (lastEnd start : ℚ) :
    nextSpeaker false i cur lastEnd start = cur := by
  simp [nextSpeaker]

lemma formatSegsAux_length (sd : Bool) (segs : List RawSegment) :
    ∀ i cur lastEnd, (formatSegsAux sd segs i cur lastEnd).length = segs.length := by
  induction segs with
  | nil => intro i cur le; rfl
  | cons s rest ih => intro i cur le; simp [formatSegsAux, ih]

lemma formatSegsAux_getElem? (sd : Bool) (segs : List RawSegment) :
    ∀ (i : ℕ) (cur : String) (lastEnd : ℚ) (j : ℕ),
      ((formatSegsAux sd segs i cur lastEnd)[j]?).map
          (fun (f : FormattedSegment) => (f.text, f.start, f.stop))
        = (segs[j]?).map
          (fun (s : RawSegment) => (s.text.trim, round2 s.start, round2 s.stop)) := by
  induction segs with
  | nil => intro i cur le j; rfl
  | cons s rest ih =>
      intro i cur le j
      cases j with
      | zero => simp [formatSegsAux]
      | succ j => simpa [formatSegsAux] using ih (i + 1) _ s.stop j

lemma formatSegsAux_speaker_mem (sd : Bool) (segs : List RawSegment) :
    ∀ i cur lastEnd, (cur = "Speaker 1" ∨ cur = "Speaker 2") →
      ∀ f ∈ formatSegsAux sd segs i cur lastEnd,
        f.speaker = "Speaker 1" ∨ f.speaker = "Speaker 2" := by
  induction segs with
  | nil => intro i cur le _ f hf; simp [formatSegsAux] at hf
  | cons s rest ih =>
      intro i cur le hcur f hf
      rw [formatSegsAux, List.mem_cons] at hf
      rcases hf with hf | hf
      · subst hf
        exact nextSpeaker_mem sd i cur le s.start hcur
      · exact ih (i + 1) _ s.stop (nextSpeaker_mem sd i cur le s.start hcur) f hf

lemma formatSegsAux_speaker_const (segs : List RawSegment) :
    ∀ i cur lastEnd, ∀ f ∈ formatSegsAux false segs i cur lastEnd, f.speaker = cur := by
  induction segs with
  | nil => intro i cur le f hf; simp [formatSegsAux] at hf
  | cons s rest ih =>
      intro i cur le f hf
      rw [formatSegsAux, List.mem_cons] at hf
      rcases hf with hf | hf
      · subst hf
        exact nextSpeaker_false i cur le s.start
      · have := ih (i + 1) _ s.stop f hf
        rwa [nextSpeaker_false] at this

lemma dedup_length_le_two (l : List String) (a b : String)
    (h : ∀ x ∈ l, x = a ∨ x = b) : l.dedup.length ≤ 2 := by
  have hsub : l.dedup ⊆ [a, b] := by
    intro x hx
    rcases h x (List.dedup_subset l hx) with hxa | hxb
    · simp [hxa]
    · simp [hxb]
  have := (List.subperm_of_subset (List.nodup_dedup l) hsub).length_le
  simpa using this

lemma exampleSegs_speakers :
    (formatSegments true exampleSegs).map (fun s => s.speaker)
      = ["Speaker 1", "Speaker 1", "Speaker 1", "Speaker 1"] := by
  simp only [exampleSegs, formatSegments, formatSegsAux, nextSpeaker, speakerLabel]
  norm_num
  rfl

lemma get_model_cached (s : RegistryState) (m : String) (h : Handle)
    (hm : s.loadedModels.lookup m = some h) : get_model s m = (h, s) := by
  simp [get_model, hm]

lemma runGetModels_cached (m : String) (h : Handle) :
    ∀ k (s : RegistryState), s.loadedModels.lookup m = some h →
      runGetModels s (List.replicate k m) = (List.replicate k h, s) := by
  intro k
  induction k with
  | zero => intro s hm; rfl
  | succ k ih =>
      intro s hm
      simp [List.replicate_succ, runGetModels, get_model_cached s m h hm, ih s hm]

/-! ### Claims -/

/-- C1 counterexample: on the spec's worked example (starts `[0, 1, 5, 6]`,
ends `[1, 2, 5.5, 6.5]`, detection enabled), the segment at index 2 is not
labelled "Speaker 2" as the claim states. -/
theorem C1_counterexample :
    ((formatSegments true exampleSegs).map (fun s => s.speaker))[2]?
      ≠ some "Speaker 2" := by
  rw [exampleSegs_speakers]
  decide

/-- C1 (amended): on the worked example all four segments are labelled
"Speaker 1": the 3 s gap before index 2 does trigger a reassignment, but
the label it assigns is derived from the index, `Speaker ((2 % 2) + 1)`
= "Speaker 1", so no alternation is observed. -/
theorem C1_speaker_gap_example :
    (formatSegments true exampleSegs).map (fun s => s.speaker)
      = ["Speaker 1", "Speaker 1", "Speaker 1", "Speaker 1"]
    ∧ speakerLabel 2 = "Speaker 1" :=
  ⟨exampleSegs_speakers, rfl⟩

/-- C2 counterexample: with speaker detection disabled and an empty
segment sequence, the reported speaker count is 1, not 0 as the claim
states. -/
theorem C2_counterexample :
    responseSpeakers ((transcribeV2 .ok true (.ok [] "" "en") false "transcribe").1)
      = some 1 ∧ (1 : ℕ) ≠ 0 := by
  exact ⟨rfl, by decide⟩

/-- C2 (amended): with speaker detection disabled, every output segment
carries the single fixed label "Speaker 1", and the reported speaker
count is always 1 — including for an empty segment sequence. -/
theorem C2_disabled_single_label (segs : List RawSegment)
    (fullText lang task : String) :
    (responseSegments ((transcribeV2 .ok true (.ok segs fullText lang) false task).1)).map
        (fun l => l.all (fun f => f.speaker == "Speaker 1"))
      = some true
    ∧ responseSpeakers ((transcribeV2 .ok true (.ok segs fullText lang) false task).1)
      = some 1 := by
  constructor
  · have hseg : responseSegments ((transcribeV2 .ok true (.ok segs fullText lang) false task).1)
        = some (formatSegments false segs) := rfl
    rw [hseg, Option.map_some']
    congr 1
    rw [List.all_eq_true]
    intro f hf
    have := formatSegsAux_speaker_const segs 0 "Speaker 1" 0 f hf
    simp [this]
  · rfl

/-- C3 counterexample: in the multi-model service a decode timeout is
caught by the generic handler and answered with HTTP 500, not 408 as the
claim states for every request. -/
theorem C3_counterexample :
    ((transcribeMulti "tiny" (.timeout "boom") false (.ok [] "" "en")).1).statusCode
      = 500 ∧ (500 : ℕ) ≠ 408 := by
  exact ⟨rfl, by decide⟩

/-- C3 (amended): in the single-model service a decode timeout yields the
fixed timeout message with HTTP 408 (a status distinct from the 400 used
for conversion errors) and both temporary files are deleted; in the
multi-model service the timeout exception falls into the generic handler
and yields HTTP 500 with the exception's message, with the temporary
files still deleted. -/
theorem C3_timeout_behavior (excMsg task m : String) (w sd : Bool)
    (recog : RecogOutcome) (hm : m ∈ knownModels) :
    transcribeV2 (.timeout excMsg) w recog sd task
      = (.error 408 "Audio processing timed out (file too large?)" none, ⟨false, false⟩)
    ∧ (408 : ℕ) ≠ 400
    ∧ transcribeMulti m (.timeout excMsg) w recog
      = (.error 500 excMsg, ⟨false, false⟩) := by
  refine ⟨?_, by decide, ?_⟩
  · cases w <;> simp [transcribeV2, cleanup]
  · cases w <;> simp [transcribeMulti, hm, cleanup]

/-- Witness for C3 at a concrete input. -/
theorem C3_timeout_behavior_witness :
    ("tiny" ∈ knownModels)
    ∧ transcribeMulti "tiny" (.timeout "boom") false (.ok [] "" "en")
      = (.error 500 "boom", ⟨false, false⟩) :=
  ⟨by decide,
   (C3_timeout_behavior "boom" "transcribe" "tiny" false true (.ok [] "" "en")
      (by decide)).2.2⟩

/-- C4 counterexample: in the multi-model service a non-zero decoder exit
is not checked; the request proceeds to recognition and can answer 200,
not 400 as the claim states for every request. -/
theorem C4_counterexample :
    ((transcribeMulti "tiny" (.nonZeroExit "decoder stderr") true
        (.ok [] "recognized" "en")).1).statusCode = 200
    ∧ (200 : ℕ) ≠ 400 := by
  exact ⟨rfl, by decide⟩

/-- C4 (amended): in the single-model service a non-zero decoder exit
yields HTTP 400 carrying the decoder's stderr, and the response does not
depend on the recognition outcome (recognition is never reached); the
multi-model service ignores the decoder's exit code entirely — its
behavior on a non-zero exit is identical to its behavior on a clean
exit. -/
theorem C4_conversion_behavior (stderr task m : String) (w sd : Bool)
    (recog recog2 : RecogOutcome) :
    transcribeV2 (.nonZeroExit stderr) w recog sd task
      = (.error 400 ("Audio conversion failed: " ++ stderr) none, ⟨false, false⟩)
    ∧ transcribeV2 (.nonZeroExit stderr) w recog sd task
      = transcribeV2 (.nonZeroExit stderr) w recog2 sd task
    ∧ transcribeMulti m (.nonZeroExit stderr) true recog
      = transcribeMulti m .ok true recog := by
  refine ⟨?_, ?_, ?_⟩
  · cases w <;> simp [transcribeV2, cleanup]
  · simp [transcribeV2]
  · by_cases hm : m ∈ knownModels
    · cases recog <;> simp [transcribeMulti, hm, cleanup]
    · simp [transcribeMulti, hm]

/-- C5: on every exit path of both handlers — success, conversion
failure, timeout, or internal error — both per-request temporary files
are gone when the response is returned. -/
theorem C5_cleanup_all_paths (d : DecodeOutcome) (w sd : Bool)
    (recog : RecogOutcome) (task m : String) :
    (transcribeV2 d w recog sd task).2 = ⟨false, false⟩
    ∧ (transcribeMulti m d w recog).2 = ⟨false, false⟩ := by
  constructor
  · cases d <;> cases recog <;> cases w <;> simp [transcribeV2, cleanup]
  · by_cases hm : m ∈ knownModels
    · cases d <;> cases recog <;> cases w <;> simp [transcribeMulti, hm, cleanup]
    · simp [transcribeMulti, hm]

/-- C6: in every successful result of either handler, `duration_seconds`
is the end time of the last raw segment rounded to two decimals when the
segment sequence is non-empty, and 0 when it is empty. -/
theorem C6_duration_seconds (sd : Bool) (task fullText lang m : String)
    (segs : List RawSegment) (hm : m ∈ knownModels) :
    (∀ h : segs ≠ [],
      responseDuration ((transcribeV2 .ok true (.ok segs fullText lang) sd task).1)
        = some (round2 (segs.getLast h).stop)
      ∧ multiDuration ((transcribeMulti m .ok true (.ok segs fullText lang)).1)
        = some (round2 (segs.getLast h).stop))
    ∧ (responseDuration ((transcribeV2 .ok true (.ok [] fullText lang) sd task).1)
        = some 0
      ∧ multiDuration ((transcribeMulti m .ok true (.ok [] fullText lang)).1)
        = some 0) := by
  have hdur : ∀ h : segs ≠ [], durationSeconds segs = round2 (segs.getLast h).stop := by
    intro h
    rw [durationSeconds, List.getLast?_eq_getLast segs h]
  refine ⟨fun h => ⟨?_, ?_⟩, ?_, ?_⟩
  · have : responseDuration ((transcribeV2 .ok true (.ok segs fullText lang) sd task).1)
        = some (durationSeconds segs) := rfl
    rw [this, hdur h]
  · have : multiDuration ((transcribeMulti m .ok true (.ok segs fullText lang)).1)
        = some (durationSeconds segs) := by
      simp [transcribeMulti, hm, multiDuration]
    rw [this, hdur h]
  · rfl
  · simp [transcribeMulti, hm, multiDuration, durationSeconds]

/-- Witness for C6 at a concrete input. -/
theorem C6_duration_seconds_witness :
    ("tiny" ∈ knownModels)
    ∧ responseDuration ((transcribeV2 .ok true (.ok exampleSegs "t" "en") true "x").1)
      = some (13/2 : ℚ) := by
  have hne : exampleSegs ≠ [] := by simp [exampleSegs]
  refine ⟨by decide, ?_⟩
  have h := ((C6_duration_seconds true "x" "t" "en" "tiny" exampleSegs (by decide)).1 hne).1
  rw [h]
  norm_num [exampleSegs, List.getLast, round2]

/-- C7 counterexample: when recognition fails, the 500 response body
contains the formatted traceback — it is not kept server-side as the
claim states. -/
theorem C7_counterexample :
    responseTraceback
      ((transcribeV2 .ok true (.failure "boom" "Traceback detail") true "transcribe").1)
      = some "Traceback detail"
    ∧ some "Traceback detail" ≠ (none : Option String) := by
  exact ⟨rfl, by decide⟩

/-- C7 (amended): when recognition (or any code after a clean decode)
raises unexpectedly, the single-model handler returns HTTP 500 whose body
carries both the exception's message and its full formatted traceback;
no server-side-only logging of the detail takes place. -/
theorem C7_traceback_in_body (msg tb task : String) (sd : Bool) :
    (transcribeV2 .ok true (.failure msg tb) sd task).1
      = .error 500 msg (some tb) := by
  rfl

/-- C8: under the serialized (atomic, no suspension point) execution of
`get_model`, any number of requests for the same not-yet-loaded
identifier execute exactly one underlying load, and every caller —
including later repeated calls in the process — receives the same handle
instance, the one the single load created. -/
theorem C8_single_flight (s0 : RegistryState) (m : String) (n : ℕ)
    (hm : s0.loadedModels.lookup m = none) :
    ((runGetModels s0 (List.replicate (n + 1) m)).2).loadCount = s0.loadCount + 1
    ∧ ∀ h ∈ (runGetModels s0 (List.replicate (n + 1) m)).1,
        h = (⟨s0.nextId, m⟩ : Handle) := by
  have hstep : get_model s0 m
      = (⟨s0.nextId, m⟩,
         ⟨(m, ⟨s0.nextId, m⟩) :: s0.loadedModels, s0.nextId + 1, s0.loadCount + 1⟩) := by
    simp [get_model, hm]
  have hlookup :
      ((m, (⟨s0.nextId, m⟩ : Handle)) :: s0.loadedModels).lookup m
        = some ⟨s0.nextId, m⟩ := by
    simp [List.lookup]
  have hrun := runGetModels_cached m ⟨s0.nextId, m⟩ n
    ⟨(m, ⟨s0.nextId, m⟩) :: s0.loadedModels, s0.nextId + 1, s0.loadCount + 1⟩ hlookup
  constructor
  · simp [List.replicate_succ, runGetModels, hstep, hrun]
  · intro h hh
    simp only [List.replicate_succ, runGetModels, hstep, hrun, List.mem_cons] at hh
    rcases hh with hh | hh
    · exact hh
    · exact List.eq_of_mem_replicate hh

/-- Witness for C8 at a concrete input: three calls for "tiny" from an
empty registry perform exactly one load. -/
theorem C8_single_flight_witness :
    ((⟨[], 0, 0⟩ : RegistryState).loadedModels.lookup "tiny" = none)
    ∧ ((runGetModels ⟨[], 0, 0⟩ (List.replicate 3 "tiny")).2).loadCount = 0 + 1 :=
  ⟨rfl, (C8_single_flight ⟨[], 0, 0⟩ "tiny" 2 rfl).1⟩

/-- C9: every label the segmentation step assigns is "Speaker 1" or
"Speaker 2", and consequently the reported distinct-speaker count never
exceeds 2, for any segment sequence and either detection setting. -/
theorem C9_speaker_labels (sd : Bool) (segs : List RawSegment) :
    ((formatSegments sd segs).all
        (fun f => f.speaker == "Speaker 1" || f.speaker == "Speaker 2")) = true
    ∧ speakersDetected sd (formatSegments sd segs) ≤ 2 := by
  have hmem : ∀ f ∈ formatSegments sd segs,
      f.speaker = "Speaker 1" ∨ f.speaker = "Speaker 2" :=
    formatSegsAux_speaker_mem sd segs 0 "Speaker 1" 0 (Or.inl rfl)
  constructor
  · rw [List.all_eq_true]
    intro f hf
    rcases hmem f hf with h | h <;> simp [h]
  · unfold speakersDetected
    split
    · refine dedup_length_le_two _ "Speaker 1" "Speaker 2" ?_
      intro x hx
      rw [List.mem_map] at hx
      obtain ⟨f, hf, rfl⟩ := hx
      exact hmem f hf
    · omega

/-- C10: the formatted segment sequence has the same length as the raw
one, and position by position its text is the stripped raw text and its
start and end times are the raw times rounded to two decimals — so order
is preserved. -/
theorem C10_segment_fields (sd : Bool) (segs : List RawSegment) :
    (formatSegments sd segs).length = segs.length
    ∧ ∀ j : ℕ,
      ((formatSegments sd segs)[j]?).map
          (fun (f : FormattedSegment) => (f.text, f.start, f.stop))
        = (segs[j]?).map
          (fun (s : RawSegment) => (s.text.trim, round2 s.start, round2 s.stop)) :=
  ⟨formatSegsAux_length sd segs 0 "Speaker 1" 0,
   fun j => formatSegsAux_getElem? sd segs 0 "Speaker 1" 0 j⟩

end Ramble
